import Mathlib

/-!
Verification of the authorization-and-session core of the htpi-admin-service
repository, shallowly embedded in Lean 4.

The embedding follows `src/app/services/auth_service.py`,
`src/app/services/nats_service.py`, `src/app/models/admin.py` and
`src/app/models/user.py`. Pure Python functions become Lean functions; the
bus-interacting coroutines become functions from the relevant bus responses
to a pair of (result, list of published messages), so that their effects can
be reasoned about explicitly. Times are modelled as natural numbers
(seconds); `datetime.utcnow()` becomes an explicit `now` parameter.
-/

namespace HtpiAdmin

/-! ## Access checks (`AuthService.has_permission`, `AuthService.can_access_org`)

`auth_service.py` lines 190-204 operate on a plain dict (`admin_data`) read
from a token payload or an identity record. The fields consulted are modelled
as a structure. -/

/-- The projection of an admin identity dict that the access checks read:
`is_super_admin`, `permissions` (strings), `org_ids` (strings). -/
structure AdminData where
  is_super_admin : Bool
  permissions : List String
  org_ids : List String
deriving DecidableEq

/-- `AuthService.has_permission` (auth_service.py:190-196): super admins pass
unconditionally; otherwise membership in the `permissions` list. -/
def has_permission (a : AdminData) (p : String) : Bool :=
  if a.is_super_admin then true
  else a.permissions.contains p

/-- `AuthService.can_access_org` (auth_service.py:198-204): super admins pass
unconditionally; otherwise `org_id in org_ids or len(org_ids) == 0`
("Empty means all orgs"). -/
def can_access_org (a : AdminData) (o : String) : Bool :=
  if a.is_super_admin then true
  else (a.org_ids.contains o || a.org_ids.length == 0)

/-- C1: for every identity with the super-admin flag set, both access checks
succeed for every permission string and every org id, regardless of the
listed `permissions` and `org_ids` (including org ids absent from the
identity's `org_ids` list). -/
theorem super_admin_passes_all_checks (a : AdminData) (p o : String)
    (h : a.is_super_admin = true) :
    has_permission a p = true ∧ can_access_org a o = true := by
  constructor
  · simp [has_permission, h]
  · simp [can_access_org, h]

/-- Witness for C1 at a concrete super-admin identity whose permission list
is empty and whose org list does not contain the queried org id. -/
theorem super_admin_passes_all_checks_witness :
    has_permission ⟨true, [], ["org-1"]⟩ "user:delete" = true ∧
    can_access_org ⟨true, [], ["org-1"]⟩ "org-2" = true :=
  super_admin_passes_all_checks ⟨true, [], ["org-1"]⟩ "user:delete" "org-2" rfl

/-- C3: for every non-super-admin identity, `can_access_org` returns true for
every org id when the org list is empty (empty scope is unrestricted), and
returns false for every org id absent from a non-empty org list, for any
permission list. -/
theorem can_access_org_scope (a : AdminData) (o : String)
    (h : a.is_super_admin = false) :
    (a.org_ids = [] → can_access_org a o = true) ∧
    (a.org_ids ≠ [] → a.org_ids.contains o = false → can_access_org a o = false) := by
  constructor
  · intro he
    simp [can_access_org, h, he]
  · intro hne hc
    simp at hc
    simp [can_access_org, h, hc, List.length_eq_zero, hne]

/-- Witness for C3: a non-super-admin with empty scope reaches any org; one
with scope `["org-1"]` cannot reach `"org-2"`. -/
theorem can_access_org_scope_witness :
    can_access_org ⟨false, ["org:read"], []⟩ "org-9" = true ∧
    can_access_org ⟨false, ["org:read"], ["org-1"]⟩ "org-2" = false :=
  ⟨(can_access_org_scope ⟨false, ["org:read"], []⟩ "org-9" rfl).1 rfl,
   (can_access_org_scope ⟨false, ["org:read"], ["org-1"]⟩ "org-2" rfl).2
     (by decide) (by decide)⟩

/-! ## Admin roles and permissions (`src/app/models/admin.py`) -/

/-- `AdminRole` (admin.py:9-16). -/
inductive AdminRole where
  | super_admin
  | org_admin
  | billing_admin
  | clinical_admin
  | support_admin
  | read_only
deriving DecidableEq

/-- `AdminPermission` (admin.py:19-53), in declaration order. -/
inductive AdminPermission where
  | user_create
  | user_read
  | user_update
  | user_delete
  | user_suspend
  | org_create
  | org_read
  | org_update
  | org_delete
  | org_suspend
  | billing_view
  | billing_update
  | billing_export
  | clinical_view
  | clinical_audit
  | clinical_export
  | system_config
  | system_monitor
  | system_audit
  | report_view
  | report_create
  | report_export
deriving DecidableEq

/-- `list(AdminPermission)`: every member of the enum, in declaration order. -/
def adminPermissionList : List AdminPermission :=
  [.user_create, .user_read, .user_update, .user_delete, .user_suspend,
   .org_create, .org_read, .org_update, .org_delete, .org_suspend,
   .billing_view, .billing_update, .billing_export,
   .clinical_view, .clinical_audit, .clinical_export,
   .system_config, .system_monitor, .system_audit,
   .report_view, .report_create, .report_export]

/-- The per-role default permission tables inlined in the
`set_permissions_by_role` validator (admin.py:89-134). -/
def adminRoleDefaultPermissions : AdminRole → List AdminPermission
  | .super_admin => adminPermissionList
  | .org_admin =>
      [.user_create, .user_read, .user_update, .user_suspend,
       .org_read, .org_update, .billing_view, .clinical_view,
       .report_view, .report_create]
  | .billing_admin =>
      [.billing_view, .billing_update, .billing_export,
       .report_view, .report_export]
  | .clinical_admin =>
      [.clinical_view, .clinical_audit, .clinical_export,
       .report_view, .report_create]
  | .support_admin =>
      [.user_read, .org_read, .clinical_view, .system_monitor]
  | .read_only =>
      [.user_read, .org_read, .billing_view, .clinical_view, .report_view]

/-- The pydantic validator `AdminUser.set_permissions_by_role`
(admin.py:84-135): `if not v and role:` fill the role's default table,
otherwise return the supplied list `v` unchanged. A missing/`None` incoming
value is modelled by the empty list; a missing role by `none`. -/
def set_permissions_by_role (v : List AdminPermission) (role : Option AdminRole) :
    List AdminPermission :=
  match role with
  | some r => if v.isEmpty then adminRoleDefaultPermissions r else v
  | none => v

/-! ## Organization-user roles and permissions (`src/app/models/user.py`) -/

/-- `UserRole` (user.py:9-16). -/
inductive UserRole where
  | owner
  | admin
  | biller
  | provider
  | staff
  | read_only
deriving DecidableEq

/-- `UserPermission` (user.py:27-65), in declaration order. -/
inductive UserPermission where
  | patient_create
  | patient_read
  | patient_update
  | patient_delete
  | insurance_create
  | insurance_read
  | insurance_update
  | insurance_delete
  | insurance_verify
  | form_create
  | form_read
  | form_update
  | form_delete
  | form_submit
  | claim_submit
  | claim_read
  | claim_update
  | claim_batch
  | report_view
  | report_export
  | org_settings_view
  | org_settings_update
  | user_invite
  | user_manage
deriving DecidableEq

/-- The string `.value` of each `UserPermission` member (user.py:27-65).
Needed because `UserPermission` is a `str` enum: Python compares and hashes
its members as these strings. -/
def userPermValue : UserPermission → String
  | .patient_create => "patient:create"
  | .patient_read => "patient:read"
  | .patient_update => "patient:update"
  | .patient_delete => "patient:delete"
  | .insurance_create => "insurance:create"
  | .insurance_read => "insurance:read"
  | .insurance_update => "insurance:update"
  | .insurance_delete => "insurance:delete"
  | .insurance_verify => "insurance:verify"
  | .form_create => "form:create"
  | .form_read => "form:read"
  | .form_update => "form:update"
  | .form_delete => "form:delete"
  | .form_submit => "form:submit"
  | .claim_submit => "claim:submit"
  | .claim_read => "claim:read"
  | .claim_update => "claim:update"
  | .claim_batch => "claim:batch"
  | .report_view => "report:view"
  | .report_export => "report:export"
  | .org_settings_view => "org:settings:view"
  | .org_settings_update => "org:settings:update"
  | .user_invite => "user:invite"
  | .user_manage => "user:manage"

/-- `list(UserPermission)`: every member of the enum, in declaration order. -/
def userPermissionList : List UserPermission :=
  [.patient_create, .patient_read, .patient_update, .patient_delete,
   .insurance_create, .insurance_read, .insurance_update, .insurance_delete,
   .insurance_verify,
   .form_create, .form_read, .form_update, .form_delete, .form_submit,
   .claim_submit, .claim_read, .claim_update, .claim_batch,
   .report_view, .report_export,
   .org_settings_view, .org_settings_update,
   .user_invite, .user_manage]

/-- `User._get_role_permissions` (user.py:118-170). The `ADMIN` branch is
`[p for p in UserPermission if not p.value.startswith('org:settings')]`. -/
def get_role_permissions : UserRole → List UserPermission
  | .owner => userPermissionList
  | .admin => userPermissionList.filter
      (fun p => !((userPermValue p).startsWith "org:settings"))
  | .biller =>
      [.patient_read,
       .insurance_create, .insurance_read, .insurance_update, .insurance_verify,
       .form_create, .form_read, .form_update, .form_submit,
       .claim_submit, .claim_read, .claim_update, .claim_batch,
       .report_view, .report_export]
  | .provider =>
      [.patient_create, .patient_read, .patient_update,
       .insurance_read,
       .form_create, .form_read, .form_update,
       .claim_read, .report_view]
  | .staff =>
      [.patient_create, .patient_read, .patient_update,
       .insurance_read, .form_read, .claim_read]
  | .read_only =>
      [.patient_read, .insurance_read, .form_read, .claim_read, .report_view]

/-- The fields of `User` (user.py:68-110) consumed by
`get_all_permissions`: role, explicit grants, custom free-form strings. -/
structure User where
  role : UserRole
  permissions : List UserPermission
  custom_permissions : List String
deriving DecidableEq

/-- `User.get_all_permissions` (user.py:112-116):
`set(role_permissions + self.permissions + self.custom_permissions)`.
Because `UserPermission` is a `str` enum, the Python set identifies a member
with its string value, so the set is a set of strings; the subsequent
`list(...)` has unspecified order, so the faithful denotation is the set
itself, modelled as a `Finset String`. -/
def get_all_permissions (u : User) : Finset String :=
  (((get_role_permissions u.role ++ u.permissions).map userPermValue)
    ++ u.custom_permissions).toFinset

/-- C2 counterexample: for an admin identity constructed with a non-empty
explicit permission list, the permissions after construction are exactly
that list, not its union with the role's default set: with role `org_admin`
and explicit grant `[billing_view]`, the default permission `user_create`
belongs to the role table but not to the constructed permissions, so the
constructed permissions differ from the claimed union. -/
theorem admin_permissions_not_union :
    set_permissions_by_role [AdminPermission.billing_view] (some AdminRole.org_admin)
      = [AdminPermission.billing_view] ∧
    AdminPermission.user_create ∈ adminRoleDefaultPermissions AdminRole.org_admin ∧
    AdminPermission.user_create ∉
      set_permissions_by_role [AdminPermission.billing_view] (some AdminRole.org_admin) := by
  refine ⟨rfl, by decide, by decide⟩

/-- C2 as amended: for organization users, `get_all_permissions` is exactly
the union (as a set of permission strings) of the role's defaults, the
explicit grants and the custom strings, and it is invariant under
re-ordering of the explicit and custom lists. For admin identities,
construction fills the role's default table only when the explicit list is
empty; a non-empty explicit list is kept as is, without union with the
role's defaults. -/
theorem effective_permissions_characterization :
    (∀ u : User, get_all_permissions u =
      ((get_role_permissions u.role).map userPermValue).toFinset ∪
      (u.permissions.map userPermValue).toFinset ∪
      u.custom_permissions.toFinset) ∧
    (∀ (r : UserRole) (ps ps' : List UserPermission) (cs cs' : List String),
      List.Perm ps ps' → List.Perm cs cs' →
      get_all_permissions ⟨r, ps, cs⟩ = get_all_permissions ⟨r, ps', cs'⟩) ∧
    (∀ r : AdminRole,
      set_permissions_by_role [] (some r) = adminRoleDefaultPermissions r) ∧
    (∀ (v : List AdminPermission) (r : Option AdminRole), v ≠ [] →
      set_permissions_by_role v r = v) := by
  refine ⟨?_, ?_, ?_, ?_⟩
  · intro u
    simp [get_all_permissions, List.map_append, List.toFinset_append,
      Finset.union_assoc]
  · intro r ps ps' cs cs' hp hc
    apply List.toFinset_eq_of_perm
    exact List.Perm.append
      (List.Perm.map userPermValue (List.Perm.append_left _ hp)) hc
  · intro r
    rfl
  · intro v r hv
    cases r with
    | none => rfl
    | some r =>
        simp [set_permissions_by_role, List.isEmpty_iff, hv]

/-- Witness for the amended C2: two staff users whose explicit and custom
lists are re-orderings of each other get the same permission set, and an
admin identity constructed with one explicit permission keeps exactly it. -/
theorem effective_permissions_characterization_witness :
    get_all_permissions ⟨UserRole.staff, [.report_view, .claim_read], ["a:b", "c:d"]⟩
      = get_all_permissions ⟨UserRole.staff, [.claim_read, .report_view], ["c:d", "a:b"]⟩ ∧
    set_permissions_by_role [AdminPermission.billing_view] (some AdminRole.org_admin)
      = [AdminPermission.billing_view] :=
  ⟨effective_permissions_characterization.2.1 UserRole.staff
      [.report_view, .claim_read] [.claim_read, .report_view]
      ["a:b", "c:d"] ["c:d", "a:b"] (by decide) (by decide),
   effective_permissions_characterization.2.2.2
      [AdminPermission.billing_view] (some AdminRole.org_admin) (by decide)⟩

/-! ## Settings (`src/app/config.py`) -/

/-- `Settings.JWT_SECRET` default (config.py:26). -/
def JWT_SECRET : String := "your-secret-key-here"

/-- `Settings.JWT_EXPIRATION_DELTA` in seconds (config.py:28). -/
def JWT_EXPIRATION_DELTA : Nat := 3600

/-! ## Token service (`AuthService.generate_token` / `verify_token`)

`generate_token` (auth_service.py:31-43) signs a claims payload with the
process-wide secret via `jwt.encode`; `verify_token` (auth_service.py:45-60)
checks the signature and expiry via `jwt.decode`, returning `None` both on
`ExpiredSignatureError` and on `InvalidTokenError`. The HMAC is modelled by a
concrete deterministic tag over an injective-enough encoding of the claims:
a token is a (claims, tag) pair and verification recomputes the tag. Times
are seconds as naturals; expiry holds when `exp ≤ now`. -/

/-- The claims payload of `generate_token` (auth_service.py:33-41). -/
structure TokenClaims where
  admin_id : String
  email : String
  role : AdminRole
  permissions : List AdminPermission
  is_super_admin : Bool
  exp : Nat
  iat : Nat
deriving DecidableEq

/-- A signed token: the claims and the signature tag. -/
structure Token where
  claims : TokenClaims
  sig : Nat
deriving DecidableEq

/-- Numeric code of a string (positional base-256 fold). -/
def strCode (s : String) : Nat :=
  s.data.foldl (fun h c => h * 256 + c.toNat) 1

/-- Numeric code of an admin role. -/
def roleCode : AdminRole → Nat
  | .super_admin => 0
  | .org_admin => 1
  | .billing_admin => 2
  | .clinical_admin => 3
  | .support_admin => 4
  | .read_only => 5

/-- Numeric code of an admin permission (its declaration index). -/
def adminPermCode : AdminPermission → Nat
  | .user_create => 0
  | .user_read => 1
  | .user_update => 2
  | .user_delete => 3
  | .user_suspend => 4
  | .org_create => 5
  | .org_read => 6
  | .org_update => 7
  | .org_delete => 8
  | .org_suspend => 9
  | .billing_view => 10
  | .billing_update => 11
  | .billing_export => 12
  | .clinical_view => 13
  | .clinical_audit => 14
  | .clinical_export => 15
  | .system_config => 16
  | .system_monitor => 17
  | .system_audit => 18
  | .report_view => 19
  | .report_create => 20
  | .report_export => 21

/-- Numeric code of a boolean. -/
def boolCode (b : Bool) : Nat := if b then 1 else 0

/-- Field-by-field numeric encoding of a claims payload. -/
def claimsCode (c : TokenClaims) : List Nat :=
  [strCode c.admin_id, strCode c.email, roleCode c.role,
   boolCode c.is_super_admin, c.exp, c.iat]
    ++ c.permissions.map adminPermCode

/-- The signature tag over a claims payload, keyed by the secret: the model
of the HMAC used by `jwt.encode`/`jwt.decode`. -/
def signClaims (secret : String) (c : TokenClaims) : Nat :=
  (claimsCode c).foldl (fun h x => h * 1000003 + x + 1) (strCode secret)

/-- The identity record consumed and produced over the bus
(`admin.get_by_email` data), which doubles as the constructed
`AdminUser` object (admin.py:56-82): the fields the auth service reads. -/
structure AdminRec where
  id : String
  email : String
  role : AdminRole
  permissions : List AdminPermission
  org_ids : List String
  is_active : Bool
  is_super_admin : Bool
  password_hash : String
  mfa_secret : Option String
  locked_until : Option Nat
  failed_login_attempts : Nat
deriving DecidableEq

/-- `AdminUser(**admin_data)` runs the `set_permissions_by_role` validator
on the record's permissions (admin.py:84-135); all other fields carry over. -/
def mkAdminUser (a : AdminRec) : AdminRec :=
  { a with permissions := set_permissions_by_role a.permissions (some a.role) }

/-- The claims `generate_token` builds for an admin at issue time `now`
(auth_service.py:33-41): identity snapshot plus
`exp = now + JWT_EXPIRATION_DELTA`, `iat = now`. -/
def tokenClaims (a : AdminRec) (now : Nat) : TokenClaims :=
  { admin_id := a.id
    email := a.email
    role := a.role
    permissions := a.permissions
    is_super_admin := a.is_super_admin
    exp := now + JWT_EXPIRATION_DELTA
    iat := now }

/-- `AuthService.generate_token` (auth_service.py:31-43). -/
def generate_token (a : AdminRec) (now : Nat) : Token :=
  { claims := tokenClaims a now
    sig := signClaims JWT_SECRET (tokenClaims a now) }

/-- `AuthService.verify_token` (auth_service.py:45-60): `jwt.decode` checks
the signature and the `exp` claim; an invalid signature and an expired token
both return `None`. -/
def verify_token (t : Token) (now : Nat) : Option TokenClaims :=
  if t.sig = signClaims JWT_SECRET t.claims then
    if t.claims.exp ≤ now then none
    else some t.claims
  else none

/-- A concrete admin record used to evaluate the auth flow. -/
def sampleAdmin : AdminRec :=
  { id := "a1"
    email := "a@h.co"
    role := .org_admin
    permissions := []
    org_ids := ["org-1"]
    is_active := true
    is_super_admin := false
    password_hash := "hash1"
    mfa_secret := none
    locked_until := none
    failed_login_attempts := 0 }

/-- A token derived from `generate_token sampleAdmin 0` by altering the
email claim while keeping the original signature tag. -/
def tamperedToken : Token :=
  { claims := { tokenClaims sampleAdmin 0 with email := "b@h.co" }
    sig := (generate_token sampleAdmin 0).sig }

/-- C5 counterexample: an expired genuine token and a tampered token both
verify to `None`; the two results are equal, so the caller cannot tell an
`EXPIRED` failure apart from an `INVALID_SIGNATURE` failure from the value
`verify_token` returns (the causes differ only in the log line). -/
theorem token_failures_indistinguishable :
    verify_token (generate_token sampleAdmin 0) 3600 = none ∧
    verify_token tamperedToken 0 = none ∧
    verify_token (generate_token sampleAdmin 0) 3600 = verify_token tamperedToken 0 := by
  refine ⟨by decide, by decide, by decide⟩

/-- C5 as amended: verification of a freshly issued token returns the
original claims at any time strictly before the TTL elapses; at or after
expiry it fails; a token whose signature tag does not match its claims
fails; but both failures are the same `None`, so the two failure causes are
not distinguishable in the returned value. -/
theorem token_roundtrip_and_failures (a : AdminRec) (tIssue now later : Nat)
    (t : Token)
    (h1 : now < tIssue + JWT_EXPIRATION_DELTA)
    (h2 : tIssue + JWT_EXPIRATION_DELTA ≤ later) :
    verify_token (generate_token a tIssue) now = some (tokenClaims a tIssue) ∧
    verify_token (generate_token a tIssue) later = none ∧
    (t.sig ≠ signClaims JWT_SECRET t.claims →
      verify_token t now = none ∧
      verify_token t now = verify_token (generate_token a tIssue) later) := by
  have hexp : (tokenClaims a tIssue).exp = tIssue + JWT_EXPIRATION_DELTA := rfl
  have hlive : ¬ (tokenClaims a tIssue).exp ≤ now := by
    rw [hexp]
    omega
  have hdead : (tokenClaims a tIssue).exp ≤ later := by
    rw [hexp]
    exact h2
  have hgen : verify_token (generate_token a tIssue) later = none := by
    simp [verify_token, generate_token, hdead]
  refine ⟨?_, hgen, ?_⟩
  · simp [verify_token, generate_token, hlive]
  · intro hsig
    have hv : verify_token t now = none := by
      simp [verify_token, hsig]
    exact ⟨hv, by rw [hv, hgen]⟩

/-- Witness for the amended C5 at `sampleAdmin`, issue time 0, verification
times 5 (before expiry) and 3600 (at expiry). -/
theorem token_roundtrip_and_failures_witness :
    verify_token (generate_token sampleAdmin 0) 5 = some (tokenClaims sampleAdmin 0) ∧
    verify_token (generate_token sampleAdmin 0) 3600 = none :=
  ⟨(token_roundtrip_and_failures sampleAdmin 0 5 3600 tamperedToken
      (by decide) (by decide)).1,
   (token_roundtrip_and_failures sampleAdmin 0 5 3600 tamperedToken
      (by decide) (by decide)).2.1⟩

/-! ## Message bus (`src/app/services/nats_service.py`) -/

/-- The `error` object of a bus reply envelope. -/
structure ErrObj where
  code : String
  message : String
deriving DecidableEq

/-- The uniform reply envelope `{success, data?, error?}` decoded from a bus
reply, with `data` at the payload type of the subject. -/
structure Envelope (α : Type) where
  success : Bool
  data : Option α
  error : Option ErrObj
deriving DecidableEq

/-- What the transport does with one request: a decoded reply arrives, the
timeout elapses (`nats.errors.TimeoutError`), or some other exception is
raised with a message. -/
inductive TransportOutcome (α : Type) where
  | reply (env : Envelope α)
  | timeout
  | transportFailure (msg : String)

/-- `NATSService.request` (nats_service.py:55-79) as a function of the
transport outcome: a reply is returned decoded; a timeout is converted to a
synthesized `TIMEOUT` envelope; any other exception is converted to a
`REQUEST_FAILED` envelope carrying the exception message. -/
def busRequest {α : Type} (o : TransportOutcome α) : Envelope α :=
  match o with
  | .reply env => env
  | .timeout =>
      { success := false
        data := none
        error := some { code := "TIMEOUT", message := "Request timed out" } }
  | .transportFailure m =>
      { success := false
        data := none
        error := some { code := "REQUEST_FAILED", message := m } }

/-- C7: `request` is total on every transport outcome (it never raises to
the caller): a timeout yields exactly the synthesized
`{success: false, error: {code: TIMEOUT}}` envelope, any other transport
failure yields `{success: false, error: {code: REQUEST_FAILED, message}}`,
and a received reply is returned as decoded. -/
theorem request_never_raises {α : Type} (m : String) (env : Envelope α) :
    busRequest (TransportOutcome.timeout : TransportOutcome α) =
      { success := false
        data := none
        error := some { code := "TIMEOUT", message := "Request timed out" } } ∧
    busRequest (TransportOutcome.transportFailure m : TransportOutcome α) =
      { success := false
        data := none
        error := some { code := "REQUEST_FAILED", message := m } } ∧
    busRequest (TransportOutcome.reply env) = env :=
  ⟨rfl, rfl, rfl⟩

/-! ### Subscription dispatch (`NATSService.subscribe`, nats_service.py:81-96)

The wrapper `message_handler` decodes the payload (`json.loads` may raise)
and invokes the user handler; an exception from either is caught and logged.
A handler is modelled as a function from the decoded payload to either the
list of replies it responds with, or the exception it raises
(`Except.error`). An undecodable payload is `none`. The wrapper's value is
the list of replies actually sent for that message. -/

/-- The inner `message_handler` closure: decode failure or a raising handler
is caught and logged; no reply is sent in either case. -/
def message_handler {α β : Type} (handler : α → Except String (List β))
    (decoded : Option α) : List β :=
  match decoded with
  | none => []
  | some p =>
      match handler p with
      | Except.ok rs => rs
      | Except.error _ => []

/-- The subscription dispatch loop over a stream of inbound messages: each
message is handled independently by the wrapped handler. -/
def dispatch {α β : Type} (handler : α → Except String (List β))
    (msgs : List (Option α)) : List (List β) :=
  msgs.map (message_handler handler)

/-- A concrete handler that raises on payload 0 and replies `"ok"` on any
other payload. -/
def sampleHandler : Nat → Except String (List String) :=
  fun n => if n = 0 then Except.error "boom" else Except.ok ["ok"]

/-- C6 counterexample: a message whose handler raises produces no reply at
all — in particular no `INTERNAL_ERROR` reply — while the next message on
the same subscription is still dispatched and answered. -/
theorem faulting_handler_sends_no_reply :
    message_handler sampleHandler (some 0) = [] ∧
    dispatch sampleHandler [some 0, some 1] = [[], ["ok"]] := by
  refine ⟨rfl, rfl⟩

/-- C6 as amended: a handler fault (or an undecodable payload) is caught by
the subscription wrapper, which sends no reply for that message (the
`INTERNAL_ERROR` reply of the spec is not produced by this wrapper), and
the dispatch loop continues: every subsequent message is handled
independently of earlier faults. -/
theorem dispatch_fault_isolation {α β : Type}
    (handler : α → Except String (List β)) (p : α) (e : String)
    (m : Option α) (msgs : List (Option α))
    (h : handler p = Except.error e) :
    message_handler handler (some p) = [] ∧
    message_handler handler none = [] ∧
    dispatch handler (m :: msgs) = message_handler handler m :: dispatch handler msgs := by
  refine ⟨?_, rfl, rfl⟩
  simp [message_handler, h]

/-- Witness for the amended C6 at the concrete raising handler. -/
theorem dispatch_fault_isolation_witness :
    message_handler sampleHandler (some 0) = [] ∧
    message_handler sampleHandler (none : Option Nat) = [] ∧
    dispatch sampleHandler [some 0, some 1] =
      message_handler sampleHandler (some 0) :: dispatch sampleHandler [some 1] :=
  dispatch_fault_isolation sampleHandler 0 "boom" (some 0) [some 1] rfl

/-! ## Login flow (`AuthService.authenticate_admin`, `create_session`,
`validate_session`)

These coroutines interleave bus traffic with pure work. Each is modelled as
a function of the bus responses it consumes (already decoded envelopes) that
returns its Python return value together with the ordered list of messages
it publishes or requests over the bus, so the side effects of every branch
are explicit. The boolean outcome of `bcrypt.checkpw` is a parameter. -/

/-- A state-mutating message sent over the bus by the auth service. All but
`createSessionReq` are fire-and-forget publishes; `createSessionReq` is the
`admin.create_session` request issued by `create_session`. -/
inductive BusMsg where
  | incrementLoginAttempts (admin_id : String)
  | resetLoginAttempts (admin_id : String)
  | updateLastLogin (admin_id : String) (last_login : Nat)
  | createSessionReq (session_id admin_id : String) (tok : Token) (expires_at : Nat)
  | updateSessionActivity (session_id : String) (last_activity : Nat)
deriving DecidableEq

/-- Whether a bus message is the session-creation request. -/
def BusMsg.isCreateSessionReq : BusMsg → Bool
  | .createSessionReq _ _ _ _ => true
  | _ => false

/-- The public view of an admin returned by `authenticate_admin`:
`admin_user.dict(exclude={'password_hash', 'mfa_secret'})`
(auth_service.py:117). The structure carries every `AdminRec` field except
the two excluded ones. -/
structure AdminPublicView where
  id : String
  email : String
  role : AdminRole
  permissions : List AdminPermission
  org_ids : List String
  is_active : Bool
  is_super_admin : Bool
  locked_until : Option Nat
  failed_login_attempts : Nat
deriving DecidableEq

/-- Projection of an admin record to its public view. -/
def adminPublicView (a : AdminRec) : AdminPublicView :=
  { id := a.id
    email := a.email
    role := a.role
    permissions := a.permissions
    org_ids := a.org_ids
    is_active := a.is_active
    is_super_admin := a.is_super_admin
    locked_until := a.locked_until
    failed_login_attempts := a.failed_login_attempts }

/-- The field names of the pydantic `AdminUser` model (admin.py:56-82), in
declaration order: the keys of `admin_user.dict()`. -/
def adminUserDictKeys : List String :=
  ["id", "email", "first_name", "last_name", "role", "permissions",
   "org_ids", "is_active", "is_super_admin", "password_hash", "mfa_enabled",
   "mfa_secret", "last_login", "failed_login_attempts", "locked_until",
   "created_at", "updated_at", "created_by", "updated_by"]

/-- The keys of `admin_user.dict(exclude={'password_hash', 'mfa_secret'})`:
the full key set minus the excluded ones. -/
def adminAuthViewKeys : List String :=
  adminUserDictKeys.filter (fun k => !(k == "password_hash" || k == "mfa_secret"))

/-- The lock check (auth_service.py:83-86):
`locked_until and datetime.fromisoformat(locked_until) > datetime.utcnow()`. -/
def lockedNow (locked_until : Option Nat) (now : Nat) : Bool :=
  match locked_until with
  | none => false
  | some t => now < t

/-- The success payload of `authenticate_admin`
(auth_service.py:115-118): `{'token': ..., 'admin': ...}`. -/
structure LoginOk where
  token : Token
  admin : AdminPublicView
deriving DecidableEq

/-- `AuthService.authenticate_admin` (auth_service.py:62-122) as a function
of the decoded `admin.get_by_email` reply, the `bcrypt.checkpw` outcome and
the current time. First component: the Python return value (`None` on every
failure). Second component: the ordered list of bus messages published. -/
def authenticate_admin (resp : Envelope AdminRec) (passwordMatches : Bool)
    (now : Nat) : Option LoginOk × List BusMsg :=
  if resp.success = false then (none, [])
  else
    match resp.data with
    | none => (none, [])
    | some ad =>
        if ad.is_active = false then (none, [])
        else if lockedNow ad.locked_until now then (none, [])
        else if passwordMatches = false then
          (none, [BusMsg.incrementLoginAttempts ad.id])
        else
          (some { token := generate_token (mkAdminUser ad) now
                  admin := adminPublicView (mkAdminUser ad) },
           [BusMsg.resetLoginAttempts ad.id, BusMsg.updateLastLogin ad.id now])

/-- The session record built by `create_session` (auth_service.py:127-134):
`expires_at = now + JWT_EXPIRATION_DELTA`, fresh id from the timestamp,
active by construction. -/
structure SessionRec where
  id : String
  admin_id : String
  token : Token
  ip_address : String
  user_agent : String
  created_at : Nat
  expires_at : Nat
  last_activity : Nat
  is_active : Bool
deriving DecidableEq

/-- The `AdminSession` value `create_session` constructs at time `now`. -/
def mkSession (admin_id : String) (tok : Token) (ip ua : String) (now : Nat) :
    SessionRec :=
  { id := "session_" ++ toString now
    admin_id := admin_id
    token := tok
    ip_address := ip
    user_agent := ua
    created_at := now
    expires_at := now + JWT_EXPIRATION_DELTA
    last_activity := now
    is_active := true }

/-- `AuthService.create_session` (auth_service.py:124-146): builds the
session record, stores it via an `admin.create_session` bus request, and
returns it iff the store reply succeeded. -/
def create_session (admin_id : String) (tok : Token) (ip ua : String)
    (now : Nat) (storeResp : Envelope Unit) :
    Option SessionRec × List BusMsg :=
  let s := mkSession admin_id tok ip ua now
  (if storeResp.success then some s else none,
   [BusMsg.createSessionReq s.id s.admin_id s.token s.expires_at])

/-- `AuthService.validate_session` (auth_service.py:148-178) as a function
of the token, the current time and the decoded `admin.get_session` reply:
the token is verified first (stateless expiry/signature check), then the
stored session must exist and have its `is_active` flag set; on success the
token payload is returned and a session-activity publish is emitted. The
session record's own `expires_at` field is never read here. -/
def validate_session (tok : Token) (now : Nat)
    (sessResp : Envelope SessionRec) : Option TokenClaims × List BusMsg :=
  match verify_token tok now with
  | none => (none, [])
  | some payload =>
      if sessResp.success = false then (none, [])
      else
        match sessResp.data with
        | none => (none, [])
        | some s =>
            if s.is_active = false then (none, [])
            else (some payload, [BusMsg.updateSessionActivity s.id now])

/-- The `admin.get_by_email` reply when no identity matches: the lookup
succeeds with empty data. -/
def respNotFound : Envelope AdminRec :=
  { success := true, data := none, error := none }

/-- A deactivated copy of `sampleAdmin`. -/
def inactiveAdmin : AdminRec :=
  { sampleAdmin with is_active := false }

/-- The lookup reply returning the inactive admin. -/
def respInactive : Envelope AdminRec :=
  { success := true, data := some inactiveAdmin, error := none }

/-- The lookup reply returning the active `sampleAdmin`. -/
def respOk : Envelope AdminRec :=
  { success := true, data := some sampleAdmin, error := none }

/-- C4 counterexample: the identity-not-found attempt and the
inactive-account attempt return the very same value (`None`, no messages):
the failure branches of `authenticate_admin` are not distinguished by any
typed result — every failure is the bare `None`. -/
theorem login_failures_collapse :
    (authenticate_admin respNotFound false 0).1 = none ∧
    (authenticate_admin respInactive false 0).1 = none ∧
    authenticate_admin respNotFound false 0 = authenticate_admin respInactive false 0 := by
  refine ⟨rfl, rfl, rfl⟩

/-- C4 as amended: every login attempt terminates in a returned value and no
branch raises past the handler boundary (the whole body is wrapped in a
catch-all returning `None`), but the four failure causes — identity not
found, inactive account, account locked until a future time, password
mismatch — all yield the same untyped failure value `None`; they are told
apart only in log lines, not in the result. -/
theorem authenticate_failure_branches (resp : Envelope AdminRec) (pw : Bool)
    (now : Nat) :
    (resp.success = false → (authenticate_admin resp pw now).1 = none) ∧
    (resp.data = none → (authenticate_admin resp pw now).1 = none) ∧
    (∀ ad, resp.data = some ad → ad.is_active = false →
      (authenticate_admin resp pw now).1 = none) ∧
    (∀ ad, resp.data = some ad → lockedNow ad.locked_until now = true →
      (authenticate_admin resp pw now).1 = none) ∧
    (pw = false → (authenticate_admin resp pw now).1 = none) := by
  refine ⟨?_, ?_, ?_, ?_, ?_⟩
  · intro h
    simp [authenticate_admin, h]
  · intro h
    cases hs : resp.success <;> simp [authenticate_admin, hs, h]
  · intro ad hd hi
    cases hs : resp.success <;> simp [authenticate_admin, hs, hd, hi]
  · intro ad hd hl
    cases hs : resp.success <;>
      cases hia : ad.is_active <;>
        simp [authenticate_admin, hs, hd, hia, hl]
  · intro hp
    cases hs : resp.success
    · simp [authenticate_admin, hs]
    · cases hd : resp.data with
      | none => simp [authenticate_admin, hs, hd]
      | some ad =>
          cases hia : ad.is_active <;>
            cases hl : lockedNow ad.locked_until now <;>
              simp [authenticate_admin, hs, hd, hia, hl, hp]

/-- Witness for the amended C4: concrete not-found and password-mismatch
attempts both return `None`. -/
theorem authenticate_failure_branches_witness :
    (authenticate_admin respNotFound true 0).1 = none ∧
    (authenticate_admin respOk false 0).1 = none :=
  ⟨(authenticate_failure_branches respNotFound true 0).2.1 rfl,
   (authenticate_failure_branches respOk false 0).2.2.2.2 rfl⟩

/-- C8 counterexample: on a successful password match `authenticate_admin`
publishes exactly the counter reset and the last-login update — its effect
list contains no session-creation request, so the Session record of the
claim is not created by `authenticate_admin` (the separate `create_session`
method is never invoked by it, nor anywhere else in the repository). -/
theorem login_success_creates_no_session :
    (authenticate_admin respOk true 7).2 =
      [BusMsg.resetLoginAttempts "a1", BusMsg.updateLastLogin "a1" 7] ∧
    (authenticate_admin respOk true 7).2.filter BusMsg.isCreateSessionReq = [] := by
  refine ⟨rfl, rfl⟩

/-- C8 as amended: on a successful password match `authenticate_admin`
publishes the `failed_attempts` reset and the `last_login` update, issues a
token over the constructed admin, and returns the token together with the
public view from which `password_hash` and `mfa_secret` are stripped (those
keys are absent from the returned dict); session creation is the separate
`create_session` method, which issues the `admin.create_session` bus
request but is not called by `authenticate_admin`. -/
theorem login_success_outcome (resp : Envelope AdminRec) (now : Nat)
    (ad : AdminRec)
    (h1 : resp.success = true) (h2 : resp.data = some ad)
    (h3 : ad.is_active = true) (h4 : lockedNow ad.locked_until now = false) :
    authenticate_admin resp true now =
      (some { token := generate_token (mkAdminUser ad) now
              admin := adminPublicView (mkAdminUser ad) },
       [BusMsg.resetLoginAttempts ad.id, BusMsg.updateLastLogin ad.id now]) ∧
    "password_hash" ∉ adminAuthViewKeys ∧
    "mfa_secret" ∉ adminAuthViewKeys ∧
    (∀ (ip ua : String) (t2 : Nat) (storeResp : Envelope Unit),
      (create_session ad.id (generate_token (mkAdminUser ad) now) ip ua t2
        storeResp).2 =
      [BusMsg.createSessionReq ("session_" ++ toString t2) ad.id
        (generate_token (mkAdminUser ad) now) (t2 + JWT_EXPIRATION_DELTA)]) := by
  refine ⟨?_, by decide, by decide, ?_⟩
  · simp [authenticate_admin, h1, h2, h3, h4]
  · intro ip ua t2 storeResp
    rfl

/-- Witness for the amended C8 at the concrete successful login. -/
theorem login_success_outcome_witness :
    authenticate_admin respOk true 7 =
      (some { token := generate_token (mkAdminUser sampleAdmin) 7
              admin := adminPublicView (mkAdminUser sampleAdmin) },
       [BusMsg.resetLoginAttempts "a1", BusMsg.updateLastLogin "a1" 7]) :=
  (login_success_outcome respOk 7 sampleAdmin rfl rfl rfl rfl).1

/-- C9: session validation rejects any attempt made at or after the
session's expiry time whenever the token's own expiry does not exceed the
session's (which holds for every session built by `create_session` from a
token issued no later than the session, the second conjunct), regardless of
the session record's `is_active` flag: the expiry check (done on the token
by `verify_token`) is independent of the flag, so an expired session never
validates. -/
theorem expired_session_rejected (tok : Token) (now : Nat)
    (resp : Envelope SessionRec) (s : SessionRec)
    (_hdata : resp.data = some s)
    (hlink : tok.claims.exp ≤ s.expires_at)
    (hpast : s.expires_at ≤ now) :
    (validate_session tok now resp).1 = none ∧
    (∀ (a : AdminRec) (admin_id ip ua : String) (tIssue t2 : Nat),
      tIssue ≤ t2 →
      (generate_token a tIssue).claims.exp ≤
        (mkSession admin_id (generate_token a tIssue) ip ua t2).expires_at) := by
  have hv : verify_token tok now = none := by
    have hle : tok.claims.exp ≤ now := le_trans hlink hpast
    unfold verify_token
    by_cases h : tok.sig = signClaims JWT_SECRET tok.claims
    · simp [h, hle]
    · simp [h]
  refine ⟨by simp [validate_session, hv], ?_⟩
  intro a admin_id ip ua tIssue t2 hle
  simp [generate_token, tokenClaims, mkSession]
  omega

/-- Witness for C9: a session created at time 0 for a token issued at time
0, still flagged active, is rejected at time 4000 (past the 3600-second
expiry). -/
theorem expired_session_rejected_witness :
    (validate_session (generate_token sampleAdmin 0) 4000
      { success := true
        data := some (mkSession "a1" (generate_token sampleAdmin 0) "ip" "ua" 0)
        error := none }).1 = none :=
  (expired_session_rejected (generate_token sampleAdmin 0) 4000
    { success := true
      data := some (mkSession "a1" (generate_token sampleAdmin 0) "ip" "ua" 0)
      error := none }
    (mkSession "a1" (generate_token sampleAdmin 0) "ip" "ua" 0)
    rfl (by decide) (by decide)).1

/-- C10: the per-branch bus effects of `authenticate_admin`: a failed
lookup, a not-found identity, an inactive account and a locked account
publish nothing; a password mismatch publishes exactly the
`failed_attempts` increment; only the success branch publishes the counter
reset and the `last_login` update — so a rejected attempt against a locked
or inactive account never moves the lockout counters. -/
theorem authenticate_effects_per_branch (resp : Envelope AdminRec) (pw : Bool)
    (now : Nat) :
    (resp.success = false → authenticate_admin resp pw now = (none, [])) ∧
    (resp.success = true → resp.data = none →
      authenticate_admin resp pw now = (none, [])) ∧
    (∀ ad, resp.success = true → resp.data = some ad →
      (ad.is_active = false → authenticate_admin resp pw now = (none, [])) ∧
      (ad.is_active = true → lockedNow ad.locked_until now = true →
        authenticate_admin resp pw now = (none, [])) ∧
      (ad.is_active = true → lockedNow ad.locked_until now = false →
        pw = false →
        authenticate_admin resp pw now =
          (none, [BusMsg.incrementLoginAttempts ad.id])) ∧
      (ad.is_active = true → lockedNow ad.locked_until now = false →
        pw = true →
        (authenticate_admin resp pw now).2 =
          [BusMsg.resetLoginAttempts ad.id, BusMsg.updateLastLogin ad.id now])) := by
  refine ⟨?_, ?_, ?_⟩
  · intro h
    simp [authenticate_admin, h]
  · intro hs hd
    simp [authenticate_admin, hs, hd]
  · intro ad hs hd
    refine ⟨?_, ?_, ?_, ?_⟩
    · intro hia
      simp [authenticate_admin, hs, hd, hia]
    · intro hia hl
      simp [authenticate_admin, hs, hd, hia, hl]
    · intro hia hl hp
      simp [authenticate_admin, hs, hd, hia, hl, hp]
    · intro hia hl hp
      simp [authenticate_admin, hs, hd, hia, hl, hp]

/-- Witness for C10: a concrete mismatch attempt publishes exactly the
increment; a concrete locked-account attempt publishes nothing. -/
theorem authenticate_effects_per_branch_witness :
    authenticate_admin respOk false 0 =
      (none, [BusMsg.incrementLoginAttempts "a1"]) ∧
    authenticate_admin
      { success := true
        data := some { sampleAdmin with locked_until := some 50 }
        error := none } false 10 = (none, []) :=
  ⟨((authenticate_effects_per_branch respOk false 0).2.2 sampleAdmin rfl
      rfl).2.2.1 rfl rfl rfl,
   ((authenticate_effects_per_branch
      { success := true
        data := some { sampleAdmin with locked_until := some 50 }
        error := none } false 10).2.2
      { sampleAdmin with locked_until := some 50 } rfl rfl).2.1 rfl rfl⟩

end HtpiAdmin
